import Mathlib

/-!
Shallow embedding of the Google Forms to Asana integration.

The repository has two variants of the same Express server:

* src/server.js — SECTION_MAP maps request types to Asana section NAMES and
  the section id is resolved at runtime by listing the sections of the
  project (getProjectSections / getSectionIdByName).  We model the fetched
  section list as an explicit parameter.
* src/unnamed/part_000 — SECTION_MAP maps request types directly to section
  GIDs; no runtime lookup.

Both share parseFormData, EMOJI_MAP, priorityMap and the task-object
construction.  JavaScript field absence is modelled with Option String; the
JavaScript or-operator on possibly-absent strings treats undefined and the
empty string as falsy, which jsOrS / jsOrO / jsOrStr capture.  Object keys
added by the conditional spread in createAsanaTask are modelled by an
Option-valued field, with taskDataKeys giving the key set of the resulting
JSON object (spreading null adds no key).
-/

/-- Inbound webhook body: a key-value record with optional string fields,
as sent by trigger.gs (`onFormSubmit`) or any other client. -/
structure RawBody where
  firstName : Option String
  lastName : Option String
  email : Option String
  requestType : Option String
  description : Option String
  priority : Option String
  deriving DecidableEq

/-- Output of parseFormData (src/server.js lines 89-99, identical in
src/unnamed/part_000 lines 88-98). -/
structure FormData where
  name : String
  email : String
  requestType : String
  description : String
  priority : String
  deriving DecidableEq

/-- JavaScript `x || d` where `x` is a possibly-absent string and `d` a
string: undefined and the empty string are falsy. -/
def jsOrS (o : Option String) (d : String) : String :=
  match o with
  | none => d
  | some s => if s = "" then d else s

/-- JavaScript `s || d` on a (present) string value. -/
def jsOrStr (s d : String) : String :=
  if s = "" then d else s

/-- JavaScript `x || y` where both operands are possibly-absent strings
(e.g. two map lookups, or a lookup followed by `null`). -/
def jsOrO (a b : Option String) : Option String :=
  match a with
  | none => b
  | some s => if s = "" then b else some s

/-- Interpolation of a JavaScript value into a template literal:
`undefined` renders as the string "undefined". -/
def jsInterp (o : Option String) : String :=
  o.getD "undefined"

/-- The character class stripped by JavaScript String.prototype.trim
(WhiteSpace and LineTerminator code points). -/
def isJsWhitespace (c : Char) : Bool :=
  c = ' ' || c = '\t' || c = '\n' || c = '\r' || c = '\x0b' || c = '\x0c' ||
  c = '\u00A0' || c = '\uFEFF' || c = '\u1680' ||
  ('\u2000' ≤ c && c ≤ '\u200A') ||
  c = '\u2028' || c = '\u2029' || c = '\u202F' || c = '\u205F' || c = '\u3000'

/-- JavaScript String.prototype.trim: remove leading and trailing
whitespace. -/
def jsTrim (s : String) : String :=
  String.mk (((s.data.dropWhile isJsWhitespace).reverse.dropWhile isJsWhitespace).reverse)

/-- parseFormData from src/server.js lines 89-99 / src/unnamed/part_000
lines 88-98: every field receives a default when absent (or empty, since
the JavaScript or-operator treats the empty string as falsy). -/
def parseFormData (body : RawBody) : FormData :=
  { name := jsOrStr (jsTrim (jsOrS body.firstName "" ++ " " ++ jsOrS body.lastName ""))
      "Unnamed Request"
    email := jsOrS body.email "no-email@provided.com"
    requestType := jsOrS body.requestType "General"
    description := jsOrS body.description "No description provided"
    priority := jsOrS body.priority "Medium" }

/-- EMOJI_MAP (identical in both variants): request type to display marker,
exact string match on the object key. -/
def EMOJI_MAP (k : String) : Option String :=
  if k = "New Customer Onboarding" then some "🆕"
  else if k = "Integration Issue" then some "🛠️"
  else if k = "Feature Requests" then some "✨"
  else if k = "Training Requests" then some "📚"
  else if k = "Account/Billing Question" then some "🧾"
  else if k = "Something else?" then some "❓"
  else none

/-- priorityMap from createAsanaTask (src/server.js lines 154-159 /
src/unnamed/part_000 lines 134-139).  Urgent maps to "high" because Asana
has no urgent level. -/
def priorityMap (p : String) : Option String :=
  if p = "Low" then some "low"
  else if p = "Medium" then some "medium"
  else if p = "High" then some "high"
  else if p = "Urgent" then some "high"
  else none

/-- One entry of the memberships array of the Asana task payload. -/
structure TaskMembership where
  project : String
  sectionGid : String
  deriving DecidableEq

/-- The `data` object of the Asana task payload built by createAsanaTask.
`memberships = none` means the conditional spread added no `memberships`
key to the object at all. -/
structure TaskData where
  name : String
  notes : String
  projects : List String
  priority : String
  memberships : Option TaskMembership
  deriving DecidableEq

/-- The set of JSON keys present on the task `data` object: the four
unconditional keys, plus `memberships` exactly when the conditional spread
`...(sectionId && \x7b memberships: [...] \x7d)` fired (spreading `null`
adds no key). -/
def taskDataKeys (t : TaskData) : List String :=
  ["name", "notes", "projects", "priority"] ++
    (match t.memberships with
     | some _ => ["memberships"]
     | none => [])

/-- The notes template of createAsanaTask: a multi-line template literal
interpolating email, request type, priority and description, trimmed. -/
def taskNotes (formData : FormData) : String :=
  jsTrim
    ("\nRequest from: " ++ formData.email ++
     "\nType: " ++ formData.requestType ++
     "\nPriority: " ++ formData.priority ++
     "\n\nDescription:\n" ++ formData.description ++
     "\n            ")

namespace Part0

/-- SECTION_MAP of src/unnamed/part_000 lines 27-34: request type to the
hard-coded Asana section GID. -/
def SECTION_MAP (k : String) : Option String :=
  if k = "New Customer Onboarding" then some "1211512835831277"
  else if k = "Integration Issue" then some "1211512835831283"
  else if k = "Feature Requests" then some "1211512835831274"
  else if k = "Training Requests" then some "1211512835831271"
  else if k = "Account/Billing Question" then some "1211512835831280"
  else if k = "Something else?" then some "1211512835831288"
  else none

/-- createAsanaTask of src/unnamed/part_000 lines 130-190, restricted to
the construction of the task `data` object (the HTTP POST of that object
is the external side effect).  `projectId` models
process.env.ASANA_PROJECT_ID. -/
def createAsanaTask (projectId : String) (formData : FormData) : TaskData :=
  let emoji := jsInterp (jsOrO (EMOJI_MAP formData.requestType) (EMOJI_MAP "Something else?"))
  let sectionId := jsOrO (SECTION_MAP formData.requestType) none
  { name := emoji ++ " [" ++ formData.requestType ++ "] " ++ formData.name
    notes := taskNotes formData
    projects := [projectId]
    priority := jsOrS (priorityMap formData.priority) "medium"
    memberships :=
      match sectionId with
      | some s => if s = "" then none else some { project := projectId, sectionGid := s }
      | none => none }

/-- The webhook pipeline of src/unnamed/part_000: parseFormData followed by
the task construction of createAsanaTask. -/
def pipeline (projectId : String) (body : RawBody) : TaskData :=
  createAsanaTask projectId (parseFormData body)

end Part0

namespace Server

/-- One section of the Asana project as returned by the sections-listing
endpoint consumed by getProjectSections. -/
structure AsanaSection where
  name : String
  gid : String
  deriving DecidableEq

/-- SECTION_MAP of src/server.js lines 27-34: request type to Asana section
NAME (resolved to a gid at runtime). -/
def SECTION_MAP (k : String) : Option String :=
  if k = "New Customer Onboarding" then some "🆕 New Customer Onboarding"
  else if k = "Integration Issue" then some "🛠️ Integration Issue"
  else if k = "Feature Requests" then some "✨ Feature Requests"
  else if k = "Training Requests" then some "📚 Training Requests"
  else if k = "Account/Billing Question" then some "🧾 Account/Billing Question"
  else if k = "Something else?" then some "❓ Something Else?"
  else none

/-- getSectionIdByName of src/server.js lines 134-147: find the section
with the given name in the fetched section list; null when absent.  The
fetched list is the explicit `sections` parameter. -/
def getSectionIdByName (sections : List AsanaSection) (sectionName : String) : Option String :=
  match sections.find? (fun s => s.name == sectionName) with
  | some s => some s.gid
  | none => none

/-- Lines 170-176 of src/server.js: sectionId starts null; when
SECTION_MAP yields a truthy section name it is resolved by
getSectionIdByName. -/
def resolveSectionId (sections : List AsanaSection) (rt : String) : Option String :=
  match SECTION_MAP rt with
  | some sectionName =>
      if sectionName = "" then none else getSectionIdByName sections sectionName
  | none => none

/-- createAsanaTask of src/server.js lines 150-206, restricted to the
construction of the task `data` object. -/
def createAsanaTask (projectId : String) (sections : List AsanaSection)
    (formData : FormData) : TaskData :=
  let emoji := jsInterp (jsOrO (EMOJI_MAP formData.requestType) (EMOJI_MAP "Something else?"))
  let sectionId := resolveSectionId sections formData.requestType
  { name := emoji ++ " [" ++ formData.requestType ++ "] " ++ formData.name
    notes := taskNotes formData
    projects := [projectId]
    priority := jsOrS (priorityMap formData.priority) "medium"
    memberships :=
      match sectionId with
      | some s => if s = "" then none else some { project := projectId, sectionGid := s }
      | none => none }

/-- The webhook pipeline of src/server.js: parseFormData followed by the
task construction of createAsanaTask, given the fetched section list. -/
def pipeline (projectId : String) (sections : List AsanaSection) (body : RawBody) : TaskData :=
  createAsanaTask projectId sections (parseFormData body)

end Server

/-- EMOJI_MAP at the designated fallback key. -/
lemma emojiSE : EMOJI_MAP "Something else?" = some "❓" := rfl

/-- The emoji expression of createAsanaTask equals the lookup with default
fallback marker. -/
lemma emoji_eq_getD (rt : String) :
    jsInterp (jsOrO (EMOJI_MAP rt) (EMOJI_MAP "Something else?")) =
      (EMOJI_MAP rt).getD "❓" := by
  rw [emojiSE]
  unfold EMOJI_MAP
  split_ifs <;> rfl

/-- jsOrS with empty default is just getD. -/
lemma jsOrS_getD_empty (o : Option String) : jsOrS o "" = o.getD "" := by
  cases o with
  | none => rfl
  | some s =>
      by_cases h : s = "" <;> simp [jsOrS, h]

/-- Sample concrete inputs used by counterexamples and witnesses. -/
def rawAllAbsent : RawBody :=
  { firstName := none, lastName := none, email := none,
    requestType := none, description := none, priority := none }

/-- The literal README example submission. -/
def rawSarah : RawBody :=
  { firstName := some "Sarah", lastName := some "Johnson",
    email := some "sarah.johnson@example.com",
    requestType := some "Feature Requests",
    description := some "Add dark mode to dashboard",
    priority := some "High" }

/-- C1: for every raw input record the composition pipeline (parseFormData
followed by the task construction of createAsanaTask) terminates and yields
exactly one task command, in both source variants; no input is rejected and
normalization never fails. -/
theorem c1_pipeline_total (projectId : String) (body : RawBody) :
    (∃! t : TaskData, Part0.pipeline projectId body = t) ∧
    (∀ sections : List Server.AsanaSection,
      ∃! t : TaskData, Server.pipeline projectId sections body = t) :=
  ⟨⟨Part0.pipeline projectId body, rfl, fun _ h => h.symm⟩,
   fun sections => ⟨Server.pipeline projectId sections body, rfl, fun _ h => h.symm⟩⟩

/-- C2: parseFormData substitutes a default for each absent field: the name
becomes "Unnamed Request" when both first and last name are absent, email
becomes "no-email@provided.com", requestType becomes "General", description
becomes "No description provided", priority becomes "Medium"; absence is
never an error. -/
theorem c2_defaults (body : RawBody) :
    (body.firstName = none → body.lastName = none →
      (parseFormData body).name = "Unnamed Request") ∧
    (body.email = none → (parseFormData body).email = "no-email@provided.com") ∧
    (body.requestType = none → (parseFormData body).requestType = "General") ∧
    (body.description = none →
      (parseFormData body).description = "No description provided") ∧
    (body.priority = none → (parseFormData body).priority = "Medium") := by
  obtain ⟨f, l, e, r, d, p⟩ := body
  refine ⟨?_, ?_, ?_, ?_, ?_⟩
  · intro hf hl
    simp only at hf hl
    subst hf; subst hl
    rfl
  · intro he
    simp only at he
    subst he; rfl
  · intro hr
    simp only at hr
    subst hr; rfl
  · intro hd
    simp only at hd
    subst hd; rfl
  · intro hp
    simp only at hp
    subst hp; rfl

/-- Witness for c2_defaults at the all-absent record. -/
theorem c2_defaults_witness :
    (parseFormData rawAllAbsent).name = "Unnamed Request" ∧
    (parseFormData rawAllAbsent).email = "no-email@provided.com" ∧
    (parseFormData rawAllAbsent).requestType = "General" ∧
    (parseFormData rawAllAbsent).description = "No description provided" ∧
    (parseFormData rawAllAbsent).priority = "Medium" :=
  ⟨(c2_defaults rawAllAbsent).1 rfl rfl,
   (c2_defaults rawAllAbsent).2.1 rfl,
   (c2_defaults rawAllAbsent).2.2.1 rfl,
   (c2_defaults rawAllAbsent).2.2.2.1 rfl,
   (c2_defaults rawAllAbsent).2.2.2.2 rfl⟩

/-- C7: a submission with priority "Urgent" and an otherwise identical one
with priority "High" yield the same priority value in the produced task
command, namely "high" (the Urgent mapping collapses into High). -/
theorem c7_urgent_collapses_to_high (projectId : String) (body : RawBody) :
    (Part0.pipeline projectId { body with priority := some "Urgent" }).priority =
      (Part0.pipeline projectId { body with priority := some "High" }).priority ∧
    (Part0.pipeline projectId { body with priority := some "Urgent" }).priority = "high" :=
  ⟨rfl, rfl⟩

/-- C8: the README example submission produces title
`✨ [Feature Requests] Sarah Johnson`, a bucket equal to the SECTION_MAP
entry for "Feature Requests", and priority value "high" (the mapped High
value). -/
theorem c8_sarah_example :
    (Part0.pipeline "P1" rawSarah).name = "✨ [Feature Requests] Sarah Johnson" ∧
    Part0.SECTION_MAP "Feature Requests" = some "1211512835831274" ∧
    (Part0.pipeline "P1" rawSarah).memberships =
      some { project := "P1", sectionGid := "1211512835831274" } ∧
    priorityMap "High" = some "high" ∧
    (Part0.pipeline "P1" rawSarah).priority = "high" :=
  ⟨rfl, rfl, rfl, rfl, rfl⟩

/-- C10: a field that is present but equal to the empty string is treated
exactly like an absent field — parseFormData substitutes the same default
(the Apps Script trigger forwards missing named values as the empty
string), and the produced task command is identical end-to-end. -/
theorem c10_empty_equals_absent (body : RawBody) :
    parseFormData { body with firstName := some "" } =
      parseFormData { body with firstName := none } ∧
    parseFormData { body with lastName := some "" } =
      parseFormData { body with lastName := none } ∧
    parseFormData { body with email := some "" } =
      parseFormData { body with email := none } ∧
    parseFormData { body with requestType := some "" } =
      parseFormData { body with requestType := none } ∧
    parseFormData { body with description := some "" } =
      parseFormData { body with description := none } ∧
    parseFormData { body with priority := some "" } =
      parseFormData { body with priority := none } ∧
    (∀ projectId : String,
      Part0.pipeline projectId { body with firstName := some "" } =
        Part0.pipeline projectId { body with firstName := none }) :=
  ⟨rfl, rfl, rfl, rfl, rfl, rfl, fun _ => rfl⟩

/-- C3: a category string that is not one of the six fixed request types
yields the fallback display marker "❓" (the EMOJI_MAP entry for
"Something else?") and a none section id in both variants; matching is
exact string equality on the map keys. -/
theorem c3_unmapped_category_fallback (rt : String)
    (h1 : rt ≠ "New Customer Onboarding") (h2 : rt ≠ "Integration Issue")
    (h3 : rt ≠ "Feature Requests") (h4 : rt ≠ "Training Requests")
    (h5 : rt ≠ "Account/Billing Question") (h6 : rt ≠ "Something else?") :
    jsInterp (jsOrO (EMOJI_MAP rt) (EMOJI_MAP "Something else?")) = "❓" ∧
    jsOrO (Part0.SECTION_MAP rt) none = none ∧
    ∀ sections : List Server.AsanaSection, Server.resolveSectionId sections rt = none := by
  have hE : EMOJI_MAP rt = none := by
    unfold EMOJI_MAP
    rw [if_neg h1, if_neg h2, if_neg h3, if_neg h4, if_neg h5, if_neg h6]
  have hP : Part0.SECTION_MAP rt = none := by
    unfold Part0.SECTION_MAP
    rw [if_neg h1, if_neg h2, if_neg h3, if_neg h4, if_neg h5, if_neg h6]
  have hS : Server.SECTION_MAP rt = none := by
    unfold Server.SECTION_MAP
    rw [if_neg h1, if_neg h2, if_neg h3, if_neg h4, if_neg h5, if_neg h6]
  refine ⟨?_, ?_, ?_⟩
  · rw [hE]; rfl
  · rw [hP]; rfl
  · intro sections
    unfold Server.resolveSectionId
    rw [hS]

/-- Witness for c3_unmapped_category_fallback at the default category
"General" (not a key of the maps). -/
theorem c3_unmapped_category_fallback_witness :
    jsInterp (jsOrO (EMOJI_MAP "General") (EMOJI_MAP "Something else?")) = "❓" ∧
    jsOrO (Part0.SECTION_MAP "General") none = none ∧
    Server.resolveSectionId [] "General" = none := by
  have h := c3_unmapped_category_fallback "General"
    (by decide) (by decide) (by decide) (by decide) (by decide) (by decide)
  exact ⟨h.1, h.2.1, h.2.2 []⟩

/-- C4: the task title equals marker, bracketed category, full name, where
the full name is the trimmed concatenation of first and last name with a
single space separator; when both names are empty or absent the title
carries "Unnamed Request" verbatim in the full-name position. -/
theorem c4_title_format (projectId : String) (body : RawBody) :
    ((Part0.pipeline projectId body).name =
      (EMOJI_MAP ((parseFormData body).requestType)).getD "❓" ++ " [" ++
        (parseFormData body).requestType ++ "] " ++
        (if jsTrim (body.firstName.getD "" ++ " " ++ body.lastName.getD "") = ""
         then "Unnamed Request"
         else jsTrim (body.firstName.getD "" ++ " " ++ body.lastName.getD ""))) ∧
    ((body.firstName = none ∨ body.firstName = some "") →
     (body.lastName = none ∨ body.lastName = some "") →
     (Part0.pipeline projectId body).name =
       (EMOJI_MAP ((parseFormData body).requestType)).getD "❓" ++ " [" ++
         (parseFormData body).requestType ++ "] " ++ "Unnamed Request") := by
  have hshape : (Part0.pipeline projectId body).name =
      (EMOJI_MAP ((parseFormData body).requestType)).getD "❓" ++ " [" ++
        (parseFormData body).requestType ++ "] " ++
        (if jsTrim (body.firstName.getD "" ++ " " ++ body.lastName.getD "") = ""
         then "Unnamed Request"
         else jsTrim (body.firstName.getD "" ++ " " ++ body.lastName.getD "")) := by
    simp only [Part0.pipeline, Part0.createAsanaTask, parseFormData, emoji_eq_getD,
      jsOrStr, jsOrS_getD_empty]
  refine ⟨hshape, ?_⟩
  intro ha hb
  rw [hshape]
  have hf : body.firstName.getD "" = "" := by
    rcases ha with h | h <;> rw [h] <;> rfl
  have hl : body.lastName.getD "" = "" := by
    rcases hb with h | h <;> rw [h] <;> rfl
  have htrim : jsTrim ("" ++ " " ++ "") = "" := by decide
  rw [hf, hl, htrim]
  simp

/-- Witness for c4_title_format at a record with both names absent. -/
theorem c4_title_format_witness :
    (Part0.pipeline "P1" rawAllAbsent).name =
      (EMOJI_MAP ((parseFormData rawAllAbsent).requestType)).getD "❓" ++ " [" ++
        (parseFormData rawAllAbsent).requestType ++ "] " ++ "Unnamed Request" :=
  (c4_title_format "P1" rawAllAbsent).2 (Or.inl rfl) (Or.inl rfl)

/-- C5 counterexample: at the all-absent submission the category "General"
resolves to a none bucket id, yet the produced task object does NOT carry
any placement field — the conditional spread omits the memberships key
entirely instead of emitting an explicit null field. -/
theorem c5_counterexample :
    jsOrO (Part0.SECTION_MAP ((parseFormData rawAllAbsent).requestType)) none = none ∧
    taskDataKeys (Part0.pipeline "P1" rawAllAbsent) =
      ["name", "notes", "projects", "priority"] ∧
    "memberships" ∉ taskDataKeys (Part0.pipeline "P1" rawAllAbsent) := by
  refine ⟨rfl, rfl, ?_⟩
  decide

/-- C5 amended: for every submission whose category resolves to a none
bucket id, the produced task object omits the placement (memberships) field
entirely; the "use default destination" signal is the absence of that key,
and the null bucket exists only in the internal sectionId variable. -/
theorem c5_amended_omits_placement (projectId : String) (body : RawBody)
    (h : Part0.SECTION_MAP ((parseFormData body).requestType) = none) :
    (Part0.pipeline projectId body).memberships = none ∧
    "memberships" ∉ taskDataKeys (Part0.pipeline projectId body) := by
  have hm : (Part0.pipeline projectId body).memberships = none := by
    simp only [Part0.pipeline, Part0.createAsanaTask, h, jsOrO]
  refine ⟨hm, ?_⟩
  unfold taskDataKeys
  rw [hm]
  decide

/-- Witness for c5_amended_omits_placement at the all-absent record. -/
theorem c5_amended_omits_placement_witness :
    (Part0.pipeline "P2" rawAllAbsent).memberships = none ∧
    "memberships" ∉ taskDataKeys (Part0.pipeline "P2" rawAllAbsent) :=
  c5_amended_omits_placement "P2" rawAllAbsent rfl

/-- Concrete submission with an unmapped priority label. -/
def rawUnmappedPriority : RawBody :=
  { firstName := some "Ada", lastName := none, email := none,
    requestType := some "Integration Issue", description := none,
    priority := some "Critical" }

/-- C6: when the priority label is absent or not a key of the priority
mapping, the task command priority value is "medium", the value the
mapping assigns to "Medium". -/
theorem c6_priority_default (projectId : String) (body : RawBody)
    (h : body.priority = none ∨ ∃ p, body.priority = some p ∧ priorityMap p = none) :
    (Part0.pipeline projectId body).priority = "medium" := by
  obtain ⟨f, l, e, r, d, p⟩ := body
  rcases h with h | ⟨q, hq, hmq⟩
  · simp only at h
    subst h
    rfl
  · simp only at hq
    subst hq
    by_cases hq0 : q = ""
    · subst hq0
      rfl
    · have hp : (parseFormData ⟨f, l, e, r, d, some q⟩).priority = q := by
        simp [parseFormData, jsOrS, hq0]
      show jsOrS (priorityMap ((parseFormData ⟨f, l, e, r, d, some q⟩).priority)) "medium"
        = "medium"
      rw [hp, hmq]
      rfl

/-- Witness for c6_priority_default at the unmapped label "Critical". -/
theorem c6_priority_default_witness :
    (Part0.pipeline "P1" rawUnmappedPriority).priority = "medium" :=
  c6_priority_default "P1" rawUnmappedPriority (Or.inr ⟨"Critical", rfl, rfl⟩)

/-- C9: the composition logic is deterministic — identical submissions
yield identical task commands in the GID-table variant, and in the
name-lookup variant whenever the same fetched section list is consumed; no
clock, randomness or per-call mutable state enters the construction. -/
theorem c9_compose_deterministic (projectId : String) (b1 b2 : RawBody) (h : b1 = b2) :
    Part0.pipeline projectId b1 = Part0.pipeline projectId b2 ∧
    ∀ sections : List Server.AsanaSection,
      Server.pipeline projectId sections b1 = Server.pipeline projectId sections b2 := by
  subst h
  exact ⟨rfl, fun _ => rfl⟩

/-- Witness for c9_compose_deterministic at the README example. -/
theorem c9_compose_deterministic_witness :
    Part0.pipeline "P1" rawSarah = Part0.pipeline "P1" rawSarah ∧
    Server.pipeline "P1" [] rawSarah = Server.pipeline "P1" [] rawSarah :=
  ⟨(c9_compose_deterministic "P1" rawSarah rawSarah rfl).1,
   (c9_compose_deterministic "P1" rawSarah rawSarah rfl).2 []⟩
